import Mathlib

/-!
Verification of the UV_printer repository (image-to-path optimizer and
experiment execution controller) against its natural-language specification.

Each Python component is shallowly embedded as an executable Lean definition:
pure computations become Lean functions over `Nat`/`Int`/`Rat`; interactions
with external devices (serial port, motion stages, the OR-Tools solver, the
file system, the wall clock) are passed in explicitly as oracle values or
functions, and fallible operations return `Option`/`Except`-style results.
Floating-point arithmetic in the source is idealized as exact rational
arithmetic; where a claim hinges on a rounding mode this is noted at the
definition.
-/

/- ===================================================================
   utils/path_generator.py — ImageTSPOptimizer
   =================================================================== -/

/-- A pixel coordinate `(row, col)` as produced by `np.where` on the label
grid in `process_shapes` (integer indices). -/
abbrev Pixel := ℤ × ℤ

/-- Nearest integer to `Real.sqrt n`, computed purely on naturals.
`_solve_tsp_for_coords` builds `np.round(squareform(pdist(coords)))`:
each matrix entry is the Euclidean distance rounded to the nearest integer.
For `n : ℕ` the distance is `√n`; its nearest integer is `Nat.sqrt n + 1`
exactly when `(2 * Nat.sqrt n + 1)^2 ≤ 4 * n`, and a tie (`√n` exactly
halfway) is impossible because `4 * n` is even while `(2k+1)^2` is odd, so
NumPy's round-half-to-even never fires on a half. -/
def roundSqrt (n : ℕ) : ℕ :=
  if (2 * Nat.sqrt n + 1) ^ 2 ≤ 4 * n then Nat.sqrt n + 1 else Nat.sqrt n

/-- Squared Euclidean distance between two pixels (exact, integer). -/
def sqDist (p q : Pixel) : ℕ :=
  ((p.1 - q.1) ^ 2 + (p.2 - q.2) ^ 2).toNat

/-- One entry of the integer distance matrix `int_distances` of
`_solve_tsp_for_coords`: the Euclidean distance between two pixel
coordinates, rounded to the nearest integer. -/
def intDist (p q : Pixel) : ℕ :=
  roundSqrt (sqDist p q)

/-- The `distance_callback` registered with the routing model in
`_solve_tsp_for_coords` (path_generator.py lines 105-110): in-range node
pairs get the rounded distance-matrix entry, out-of-range pairs get the
sentinel `999999`. -/
def distance_callback (coords : List Pixel) (i j : ℕ) : ℕ :=
  if i < coords.length ∧ j < coords.length then
    intDist (coords.getD i (0, 0)) (coords.getD j (0, 0))
  else 999999

/-- Consecutive pairs of a node sequence: the arcs actually traveled when
visiting the nodes in this order without returning to the start. -/
def pathArcs : List ℕ → List (ℕ × ℕ)
  | [] => []
  | [_] => []
  | a :: b :: t => (a, b) :: pathArcs (b :: t)

/-- Cost of visiting the nodes in the given order as an open path: the sum
of the arc costs over consecutive visited pairs only, with no arc returning
from the last node to the first. This is the objective the specification
describes for the per-shape solver. -/
def openPathCost (coords : List Pixel) (order : List ℕ) : ℕ :=
  ((pathArcs order).map (fun ab => distance_callback coords ab.1 ab.2)).sum

/-- The objective actually minimized by the solver configured in
`_solve_tsp_for_coords`. The code constructs
`pywrapcp.RoutingIndexManager(num_coords, 1, 0)`: one vehicle with the
single node `0` as both its start and its end, and
`SetArcCostEvaluatorOfAllVehicles(distance_callback)`. Under the OR-Tools
routing library's semantics the vehicle's route therefore starts at node
`0`, visits every node, and returns to node `0`, and the objective sums the
arc costs over the whole route including the final arc back into the
depot. The route extraction loop (lines 121-126) walks the route from
`routing.Start(0)` and stops before the end node, so `order` below is the
visited sequence beginning with the depot `0`, and the modeled objective
appends the return arc to node `0`. -/
def routingObjective (coords : List Pixel) (order : List ℕ) : ℕ :=
  ((pathArcs (order ++ [0])).map (fun ab => distance_callback coords ab.1 ab.2)).sum

/-- Embedding of `ImageTSPOptimizer._solve_tsp_for_coords`, with the third-party OR-Tools
solve abstracted as an oracle `solver` that either produces the route index
sequence extracted by the while-loop on lines 121-126, or `none` when
`SolveWithParameters` returns no solution (the `else` branch returning
`None`, line 132). If `num_coords <= 1` the input is returned as its own
order with no search (line 95). Otherwise the returned route indices are
mapped back over `coords` (`coords[route_indices]`, line 127); an
out-of-range index would raise inside the `try` block and be caught by
`except Exception`, returning `None` (lines 133-135). -/
def solve_tsp_for_coords (solver : List Pixel → Option (List ℕ))
    (coords : List Pixel) : Option (List Pixel) :=
  if coords.length ≤ 1 then some coords
  else
    match solver coords with
    | none => none
    | some route_indices =>
        if route_indices.all (fun i => i < coords.length) then
          some (route_indices.map (fun i => coords.getD i (0, 0)))
        else none

/-- The OR-Tools routing contract for the model built in
`_solve_tsp_for_coords`: every node index appears exactly once in a
returned route (the library visits each node of a single-vehicle model with
no disjunctions exactly once), i.e. the extracted `route_indices` list is a
permutation of `0, ..., num_coords - 1`. -/
def SolverOk (solver : List Pixel → Option (List ℕ)) (coords : List Pixel) : Prop :=
  ∀ r, solver coords = some r → r.Perm (List.range coords.length)

/- Helper lemmas about indexing. -/

theorem map_getD_range (l : List Pixel) (d : Pixel) :
    (List.range l.length).map (fun i => l.getD i d) = l := by
  induction l with
  | nil => simp
  | cons a t ih =>
      have h : List.range (t.length + 1) = 0 :: (List.range t.length).map Nat.succ :=
        List.range_succ_eq_map t.length
      simp only [List.length_cons, h, List.map_cons, List.map_map]
      refine congrArg (a :: ·) ?_
      have hfun : ((fun i => (a :: t).getD i d) ∘ Nat.succ) = fun i => t.getD i d := by
        funext i
        simp [List.getD_cons_succ]
      rw [hfun, ih]

theorem pathArcs_append_last (a : ℕ) (l : List ℕ) (x : ℕ) :
    pathArcs ((a :: l) ++ [x]) =
      pathArcs (a :: l) ++ [((a :: l).getLast (List.cons_ne_nil a l), x)] := by
  induction l generalizing a with
  | nil => simp [pathArcs]
  | cons b t ih =>
      have hb := ih b
      simp only [List.cons_append] at hb ⊢
      simp [pathArcs, hb, List.getLast]

theorem intDist_comm (p q : Pixel) : intDist p q = intDist q p := by
  unfold intDist sqDist
  have h : (p.1 - q.1) ^ 2 + (p.2 - q.2) ^ 2 = (q.1 - p.1) ^ 2 + (q.2 - p.2) ^ 2 := by
    ring
  rw [h]

theorem intDist_self (p : Pixel) : intDist p p = 0 := by
  unfold intDist sqDist
  simp [roundSqrt]

/-- The value `roundSqrt n` really is the integer nearest to `√n`: an integer `k`
satisfies `|k - √n| ≤ 1/2` iff `k² - k + 1/4 ≤ n ≤ k² + k + 1/4`, which over
the integers is `k² ≤ n + k ∧ n ≤ k² + k`. -/
theorem roundSqrt_nearest (n : ℕ) :
    (roundSqrt n) ^ 2 ≤ n + roundSqrt n ∧ n ≤ (roundSqrt n) ^ 2 + roundSqrt n := by
  have h1 : Nat.sqrt n ^ 2 ≤ n := Nat.sqrt_le' n
  have h2 : n < (Nat.sqrt n + 1) ^ 2 := Nat.lt_succ_sqrt' n
  unfold roundSqrt
  by_cases hc : (2 * Nat.sqrt n + 1) ^ 2 ≤ 4 * n
  · rw [if_pos hc]
    constructor
    · nlinarith
    · nlinarith
  · rw [if_neg hc]
    push_neg at hc
    constructor
    · nlinarith
    · nlinarith

/-- Three collinear pixels one unit apart: a concrete shape input on which
the open-path cost and the code's routing objective visibly differ. -/
def cexPixels : List Pixel := [(2, 5), (2, 6), (2, 7)]

theorem sqrt_one_eq : Nat.sqrt 1 = 1 := (Nat.eq_sqrt.mpr (by norm_num)).symm

theorem sqrt_four_eq : Nat.sqrt 4 = 2 := (Nat.eq_sqrt.mpr (by norm_num)).symm

theorem intDist_unit : intDist ((2 : ℤ), (5 : ℤ)) (2, 6) = 1 := by
  show roundSqrt (sqDist ((2 : ℤ), (5 : ℤ)) (2, 6)) = 1
  rw [show sqDist ((2 : ℤ), (5 : ℤ)) (2, 6) = 1 from rfl]
  simp [roundSqrt, sqrt_one_eq]

theorem intDist_unit' : intDist ((2 : ℤ), (6 : ℤ)) (2, 7) = 1 := by
  show roundSqrt (sqDist ((2 : ℤ), (6 : ℤ)) (2, 7)) = 1
  rw [show sqDist ((2 : ℤ), (6 : ℤ)) (2, 7) = 1 from rfl]
  simp [roundSqrt, sqrt_one_eq]

theorem intDist_two : intDist ((2 : ℤ), (7 : ℤ)) (2, 5) = 2 := by
  show roundSqrt (sqDist ((2 : ℤ), (7 : ℤ)) (2, 5)) = 2
  rw [show sqDist ((2 : ℤ), (7 : ℤ)) (2, 5) = 4 from rfl]
  simp [roundSqrt, sqrt_four_eq]

/-- C6 counterexample: the claim says the solver's objective is the sum over
consecutive visited pairs only, with no arc returning from the last visited
point to the start. On the three collinear pixels `(2,5), (2,6), (2,7)`
visited in order `0, 1, 2`, the sum over consecutive pairs only is
`1 + 1 = 2`, but the objective of the model the code configures (single
vehicle, node `0` as both start and end) is `1 + 1 + 2 = 4`: it includes
the arc from the last visited point back to the start, so the claim as
stated is false. -/
theorem C6_objective_counterexample :
    routingObjective cexPixels [0, 1, 2] = 4 ∧
      openPathCost cexPixels [0, 1, 2] = 2 := by
  constructor <;>
    simp [routingObjective, openPathCost, pathArcs, distance_callback, cexPixels,
      intDist_unit, intDist_unit', intDist_two]

/-- C6 (amended): the solver's objective is a closed tour, not an open one.
The cost matrix is the pairwise Euclidean distances rounded to the nearest
integer (`roundSqrt` satisfies the nearest-integer bounds), it is symmetric
with zero self-distance, and the objective of a visiting order is the sum
of the matrix entries over consecutive visited pairs plus the closing arc
from the last visited point back to the start node `0`. -/
theorem C6_objective_closed_tour :
    (∀ p q : Pixel, intDist p q = intDist q p) ∧
    (∀ p : Pixel, intDist p p = 0) ∧
    (∀ n : ℕ, (roundSqrt n) ^ 2 ≤ n + roundSqrt n ∧ n ≤ (roundSqrt n) ^ 2 + roundSqrt n) ∧
    (∀ (coords : List Pixel) (a : ℕ) (order : List ℕ),
      routingObjective coords (a :: order) =
        openPathCost coords (a :: order) +
          distance_callback coords ((a :: order).getLast (List.cons_ne_nil a order)) 0) := by
  refine ⟨intDist_comm, intDist_self, roundSqrt_nearest, ?_⟩
  intro coords a order
  unfold routingObjective openPathCost
  rw [pathArcs_append_last]
  simp

/-- C2: for every shape point set of size `k` handed to
`_solve_tsp_for_coords`, under the OR-Tools routing contract (`SolverOk`:
any returned route is a permutation of the node indices), the result is
either `none` (`NoSolution`) or a list of exactly the `k` input points with
each input point appearing exactly once (a permutation of the input); and
for `k ≤ 1` the input itself is returned as its own order without
consulting the solver. -/
theorem C2_solve_tsp_permutation (solver : List Pixel → Option (List ℕ))
    (coords : List Pixel) (h : SolverOk solver coords) :
    (coords.length ≤ 1 → solve_tsp_for_coords solver coords = some coords) ∧
    (∀ p, solve_tsp_for_coords solver coords = some p → p.Perm coords) := by
  constructor
  · intro hle
    unfold solve_tsp_for_coords
    rw [if_pos hle]
  · intro p hp
    unfold solve_tsp_for_coords at hp
    by_cases hle : coords.length ≤ 1
    · rw [if_pos hle] at hp
      cases hp
      exact List.Perm.refl _
    · rw [if_neg hle] at hp
      cases hsol : solver coords with
      | none => rw [hsol] at hp; cases hp
      | some r =>
          rw [hsol] at hp
          have hperm : r.Perm (List.range coords.length) := h r hsol
          have hall : (r.all fun i => decide (i < coords.length)) = true := by
            rw [List.all_eq_true]
            intro i hi
            have hmem : i ∈ List.range coords.length := hperm.mem_iff.mp hi
            simpa using List.mem_range.mp hmem
          simp only [hall, if_true] at hp
          have hmap : (r.map fun i => coords.getD i (0, 0)).Perm
              ((List.range coords.length).map fun i => coords.getD i (0, 0)) :=
            hperm.map _
          rw [map_getD_range] at hmap
          cases hp
          exact hmap

/-- The trivial route oracle used to witness `C2_solve_tsp_permutation`:
it always returns the identity route, which satisfies the routing
contract. -/
def idSolver : List Pixel → Option (List ℕ) :=
  fun c => some (List.range c.length)

/-- Witness for C2 at the concrete three-point shape
`(0,0), (0,3), (4,0)` with the identity route oracle: the routing contract
holds there, and the solved path is a permutation of the input. -/
theorem C2_solve_tsp_permutation_witness :
    SolverOk idSolver [((0 : ℤ), (0 : ℤ)), (0, 3), (4, 0)] ∧
      List.Perm [((0 : ℤ), (0 : ℤ)), (0, 3), (4, 0)]
        [((0 : ℤ), (0 : ℤ)), (0, 3), (4, 0)] := by
  have hok : SolverOk idSolver [((0 : ℤ), (0 : ℤ)), (0, 3), (4, 0)] := by
    intro r hr
    injection hr with h
    rw [← h]
  exact ⟨hok,
    (C2_solve_tsp_permutation idSolver [((0 : ℤ), (0 : ℤ)), (0, 3), (4, 0)] hok).2
      [((0 : ℤ), (0 : ℤ)), (0, 3), (4, 0)] rfl⟩

/-- The contribution of one label to the global path assembled by
`ImageTSPOptimizer.process_shapes` (path_generator.py lines 144-153): the
label's shape points are looked up (`np.where(labels == label_id)`); an
empty point set is skipped (`continue`, line 146); otherwise the TSP result
is appended when truthy (`if optimized_path_pixels:`, line 149 — both
`None` and the empty list are falsy) and skipped with a log otherwise. -/
def shape_contrib (shapeOf : ℕ → List Pixel)
    (solver : List Pixel → Option (List Pixel)) (label : ℕ) : List Pixel :=
  if (shapeOf label).length = 0 then []
  else
    match solver (shapeOf label) with
    | some p => if p = [] then [] else p
    | none => []

/-- Embedding of `ImageTSPOptimizer.process_shapes` (lines 137-154): iterates
`label_id in range(1, num_labels)` in ascending order, extending
`all_paths_pixels` with each shape's solved order. The early return when
`num_labels <= 1` (line 140) coincides with the loop body running zero
times, so it is not modeled separately. `solver` stands for
`_solve_tsp_for_coords`, whose `None` result models `NoSolution` (including
any exception caught inside it). -/
def process_shapes (num_labels : ℕ) (shapeOf : ℕ → List Pixel)
    (solver : List Pixel → Option (List Pixel)) : List Pixel :=
  (List.range' 1 (num_labels - 1)).foldl
    (fun acc label =>
      if (shapeOf label).length = 0 then acc
      else
        match solver (shapeOf label) with
        | some p => if p = [] then acc else acc ++ p
        | none => acc)
    []

theorem process_shapes_step (shapeOf : ℕ → List Pixel)
    (solver : List Pixel → Option (List Pixel)) (acc : List Pixel) (label : ℕ) :
    (if (shapeOf label).length = 0 then acc
      else
        match solver (shapeOf label) with
        | some p => if p = [] then acc else acc ++ p
        | none => acc) = acc ++ shape_contrib shapeOf solver label := by
  unfold shape_contrib
  by_cases h0 : (shapeOf label).length = 0
  · simp [h0]
  · rw [if_neg h0, if_neg h0]
    cases hsol : solver (shapeOf label) with
    | none => simp
    | some p =>
        by_cases hp : p = []
        · simp [hp]
        · simp [hp]

theorem foldl_append_contrib (shapeOf : ℕ → List Pixel)
    (solver : List Pixel → Option (List Pixel)) (labels : List ℕ) (acc : List Pixel) :
    labels.foldl
      (fun acc label =>
        if (shapeOf label).length = 0 then acc
        else
          match solver (shapeOf label) with
          | some p => if p = [] then acc else acc ++ p
          | none => acc)
      acc = acc ++ (labels.map (shape_contrib shapeOf solver)).flatten := by
  induction labels generalizing acc with
  | nil => simp
  | cons a t ih =>
      rw [List.foldl_cons, process_shapes_step, ih, List.map_cons, List.flatten_cons,
        List.append_assoc]

/-- Lemma: `process_shapes` is the label-order concatenation of the per-label
contributions. -/
theorem process_shapes_eq_flatten (num_labels : ℕ) (shapeOf : ℕ → List Pixel)
    (solver : List Pixel → Option (List Pixel)) :
    process_shapes num_labels shapeOf solver =
      ((List.range' 1 (num_labels - 1)).map (shape_contrib shapeOf solver)).flatten := by
  unfold process_shapes
  rw [foldl_append_contrib]
  simp

theorem flatten_map_filter_of_nil {α β : Type} (f : α → List β) (p : α → Bool)
    (l : List α) (h : ∀ x ∈ l, p x = false → f x = []) :
    (l.map f).flatten = ((l.filter p).map f).flatten := by
  induction l with
  | nil => simp
  | cons a t ih =>
      have ht : ∀ x ∈ t, p x = false → f x = [] := fun x hx => h x (List.mem_cons_of_mem a hx)
      cases hpa : p a with
      | true => simp [List.filter_cons, hpa, ih ht]
      | false =>
          have hfa : f a = [] := h a (List.mem_cons_self a t) hpa
          simp [List.filter_cons, hpa, hfa, ih ht]

/-- C3: if the solver reports `NoSolution` (`None`) for the shape with
label `j`, `process_shapes` skips that shape and its global path is exactly
the concatenation, in ascending label order, of every other label's
contribution — no other shape's solved order is dropped (the second
conjunct: any shape with a nonempty point set and a nonempty solved order
contributes precisely that order), and the fold is a total function, so no
exception propagates. -/
theorem C3_no_solution_skips_shape (num_labels j : ℕ) (shapeOf : ℕ → List Pixel)
    (solver : List Pixel → Option (List Pixel)) (h : solver (shapeOf j) = none) :
    process_shapes num_labels shapeOf solver =
      (((List.range' 1 (num_labels - 1)).filter (fun l => decide (l ≠ j))).map
        (shape_contrib shapeOf solver)).flatten ∧
    (∀ l p, (shapeOf l).length ≠ 0 → solver (shapeOf l) = some p → p ≠ [] →
      shape_contrib shapeOf solver l = p) := by
  constructor
  · rw [process_shapes_eq_flatten]
    apply flatten_map_filter_of_nil
    intro x _ hx
    have hxj : x = j := by simpa using hx
    subst hxj
    unfold shape_contrib
    by_cases h0 : (shapeOf x).length = 0
    · rw [if_pos h0]
    · rw [if_neg h0, h]
  · intro l p h0 hsol hp
    unfold shape_contrib
    rw [if_neg h0, hsol]
    simp [hp]

/-- Concrete segmentation used to witness `C3_no_solution_skips_shape`:
three labeled shapes, of which label 2 has two points. -/
def cexShapeOf : ℕ → List Pixel := fun l =>
  if l = 1 then [(3, 3)]
  else if l = 2 then [(5, 5), (5, 6)]
  else if l = 3 then [(7, 7)] else []

/-- Concrete per-shape solver used to witness `C3_no_solution_skips_shape`:
it finds no solution for label 2's shape and returns every other shape in
input order. -/
def cexShapeSolver : List Pixel → Option (List Pixel) := fun c =>
  if c = [(5, 5), (5, 6)] then none else some c

/-- Witness for C3: with labels 1..3 and the solver failing on label 2, the
assembled path is exactly the label-order concatenation of the two solved
shapes. -/
theorem C3_no_solution_skips_shape_witness :
    process_shapes 4 cexShapeOf cexShapeSolver =
      (((List.range' 1 3).filter (fun l => decide (l ≠ 2))).map
        (shape_contrib cexShapeOf cexShapeSolver)).flatten :=
  (C3_no_solution_skips_shape 4 2 cexShapeOf cexShapeSolver (by decide)).1

/- ===================================================================
   utils/path_generator.py — ImageTSPOptimizer.save_optimized_path
   =================================================================== -/

/-- Embedding of `ImageTSPOptimizer.save_optimized_path` (path_generator.py lines
156-176). The output stream is abstracted by `write_ok`: `true` means every
`f.write` of the `with open(...)` block succeeds, `false` means an
`IOError` is raised while writing (both `except` arms return `False`; the
partially written file content is not modeled). The function returns
`False` immediately, without touching the stream, when `all_paths_pixels`
is empty (lines 158-160); otherwise each point `(row, col)` is written as
the line `"{col*step_size:.3f},{row*step_size:.3f}"` (the second component
returned here is `scaled_y = row * step_size`, the first
`scaled_x = col * step_size`; the fixed 3-decimal rendering of the exact
rationals is not modeled). -/
def save_optimized_path (all_paths_pixels : List Pixel) (step_size : ℚ)
    (write_ok : Bool) : Bool × List (ℚ × ℚ) :=
  if all_paths_pixels = [] then (false, [])
  else if write_ok then
    (true, all_paths_pixels.map
      (fun point => ((point.2 : ℚ) * step_size, (point.1 : ℚ) * step_size)))
  else (false, [])

/-- C4 counterexample: the claim says failure is reported only on an I/O
write error and that the empty GlobalPath is a valid outcome rather than a
write error. But on the empty path with a perfectly healthy output stream
(`write_ok = true`) the code reports failure (`False`) without attempting
any write, so the reported failure is not caused by a write error. -/
theorem C4_empty_path_counterexample :
    save_optimized_path [] 50 true = (false, []) ∧ true ≠ false := by
  constructor
  · rfl
  · decide

/-- C4 (amended): `save_optimized_path` reports success iff the path is
nonempty and the output stream could be written; an empty GlobalPath is
reported as failure (`False`, indistinguishable in the return value from a
write error) without attempting a write. On success the written records
are the points in concatenation order, scaled by `step_size` with
`x = col * step_size` and `y = row * step_size`. -/
theorem C4_save_success_iff (all_paths_pixels : List Pixel) (step_size : ℚ)
    (write_ok : Bool) :
    ((save_optimized_path all_paths_pixels step_size write_ok).1 = true ↔
      all_paths_pixels ≠ [] ∧ write_ok = true) ∧
    (all_paths_pixels ≠ [] → write_ok = true →
      (save_optimized_path all_paths_pixels step_size write_ok).2 =
        all_paths_pixels.map
          (fun point => ((point.2 : ℚ) * step_size, (point.1 : ℚ) * step_size))) := by
  unfold save_optimized_path
  by_cases hp : all_paths_pixels = []
  · simp [hp]
  · cases write_ok with
    | true => simp [hp]
    | false => simp [hp]

/-- Witness for C4 at the spec's own scenario: the single pixel
`(row=2, col=3)` with `step_size = 50` is written successfully as the
coordinate record `(150, 100)`. -/
theorem C4_save_success_iff_witness :
    ([((2 : ℤ), (3 : ℤ))] : List Pixel) ≠ [] ∧
      (save_optimized_path [((2 : ℤ), (3 : ℤ))] 50 true).2 = [((150 : ℚ), (100 : ℚ))] := by
  refine ⟨by decide, ?_⟩
  rw [(C4_save_success_iff [((2 : ℤ), (3 : ℤ))] 50 true).2 (by decide) rfl]
  norm_num

/- ===================================================================
   utils/helpers.py and utils/config.py
   =================================================================== -/

/-- Python's `round` on a real value: round half to even (banker's
rounding), used by `seconds_to_hms` for the fractional seconds. -/
def rnd_half_even (q : ℚ) : ℤ :=
  if q - ⌊q⌋ < 1 / 2 then ⌊q⌋
  else if 1 / 2 < q - ⌊q⌋ then ⌊q⌋ + 1
  else if ⌊q⌋ % 2 = 0 then ⌊q⌋ else ⌊q⌋ + 1

/-- Embedding of `helpers.seconds_to_hms`: negative input yields `(0, 0, 0)`; otherwise
`divmod(seconds, 3600)` and `divmod(remainder, 60)` (floor division and
remainder, exact over ℚ), with `int(...)` truncation of the nonnegative
hour and minute counts (equal to the floor) and `round(...)` of the
residual seconds. -/
def seconds_to_hms (seconds : ℚ) : ℤ × ℤ × ℤ :=
  if seconds < 0 then (0, 0, 0)
  else
    (⌊seconds / 3600⌋, ⌊(seconds - 3600 * ⌊seconds / 3600⌋) / 60⌋,
      rnd_half_even ((seconds - 3600 * ⌊seconds / 3600⌋) -
        60 * ⌊(seconds - 3600 * ⌊seconds / 3600⌋) / 60⌋))

/-- Constant `config.UV_COMMAND_OVERHEAD_S` (config.py line 39). -/
def UV_COMMAND_OVERHEAD_S : ℚ := 1

/-- Constant `config.MOVE_PROCESS_OVERHEAD_S` (config.py line 40). -/
def MOVE_PROCESS_OVERHEAD_S : ℚ := 1 / 2

/- ===================================================================
   utils/experiment_runner.py — ExperimentRunner.estimate_duration
   =================================================================== -/

/-- Embedding of `ExperimentRunner.estimate_duration` (experiment_runner.py lines
92-104). `total_steps` is set by `load_coordinates`; the overhead arguments
are the values copied from `config.UV_COMMAND_OVERHEAD_S` and
`config.MOVE_PROCESS_OVERHEAD_S` in `__init__` (lines 54-55). With no
coordinates loaded (`total_steps <= 0`) the estimate is `0`; otherwise it
is `total_steps * (cure_time_s + move_process_overhead_s)` plus the UV
command overhead added twice (line 97-98). The `seconds_to_hms` call is
for logging only and does not affect the returned value. -/
def estimate_duration (total_steps : ℕ) (cure_time_s : ℚ)
    (uv_command_overhead_s : ℚ) (move_process_overhead_s : ℚ) : ℚ :=
  if total_steps ≤ 0 then 0
  else (total_steps : ℚ) * (cure_time_s + move_process_overhead_s)
    + uv_command_overhead_s + uv_command_overhead_s

/-- C7: for a loaded coordinate set with `total_steps = n > 0` the pre-run
estimate is `n * (cure_time + move_overhead) + 2 * uv_command_overhead`. -/
theorem C7_estimate_duration_formula (n : ℕ) (c u m : ℚ) (h : 0 < n) :
    estimate_duration n c u m = (n : ℚ) * (c + m) + 2 * u := by
  unfold estimate_duration
  rw [if_neg (by omega)]
  ring

/-- Witness for C7 at the spec's scenario: 3 steps, 2-second cure time,
zero overhead constants yield a 6-second estimate. -/
theorem C7_estimate_duration_formula_witness :
    0 < 3 ∧ estimate_duration 3 2 0 0 = 6 := by
  refine ⟨by decide, ?_⟩
  rw [C7_estimate_duration_formula 3 2 0 0 (by decide)]
  norm_num

/- ===================================================================
   utils/experiment_runner.py — ExperimentRunner.load_coordinates
   =================================================================== -/

/-- Embedding of `ExperimentRunner.load_coordinates` (experiment_runner.py lines 60-90),
with the file system and `np.loadtxt` parsing abstracted: `none` is a
missing file (the `os.path.isfile` check, line 63), and `some rows` is the
file's content parsed as comma-separated numeric fields per non-empty line
(non-numeric fields, which make `np.loadtxt` raise and the function return
`False`, are outside the model). The result is `none` for failure
(`return False`) or `some total_steps` for success.

`np.loadtxt` semantics modeled: rows of unequal field counts raise
`ValueError` (caught, `False`); an empty file yields a 1-D empty array
(shape `(0,)`, left as 1-D by the guard `shape[0] >= 2`, then rejected by
the `ndim != 2` check); a single row of `w >= 2` fields yields a 1-D array
of shape `(w,)` that the code reshapes to `(1, w)` (line 68-69) and
accepts with `total_steps = 1`; a single row of one field yields a 0-D
array, rejected by `ndim != 2`; `n >= 2` rows of `w >= 2` fields yield
shape `(n, w)`, accepted with `total_steps = n`; and `n >= 2` rows of one
field each yield a 1-D array of shape `(n,)` that the same reshape turns
into `(1, n)`, which then passes the column check and is accepted with
`total_steps = 1`. The explicit `total_steps == 0` branch (line 74) is
unreachable for text input and retained only through the `[]` case. -/
def load_coordinates (file : Option (List (List ℚ))) : Option ℕ :=
  match file with
  | none => none
  | some rows =>
      if rows.all (fun r => r.length = (rows.headD []).length) then
        match rows with
        | [] => none
        | [r] => if 2 ≤ r.length then some 1 else none
        | r :: _ :: _ =>
            if 2 ≤ r.length then some rows.length
            else if r.length = 1 then some 1
            else none
      else none

/-- C8 counterexample. The claim says a file whose rows have fewer than 2
comma-separated fields is rejected, and that every file with `n ≥ 1` rows
each having at least two fields is accepted with `total_steps = n`. Both
halves fail: a two-row single-column file (`"7"` and `"8"`) is parsed as a
1-D array of shape `(2,)`, reshaped to `(1, 2)`, and accepted with
`total_steps = 1`; while a ragged file whose rows are `"1,2"` and
`"3,4,5"` (each with at least two fields) makes `np.loadtxt` raise
`ValueError` and the load fails. -/
theorem C8_load_coordinates_counterexample :
    load_coordinates (some [[(7 : ℚ)], [(8 : ℚ)]]) = some 1 ∧
      load_coordinates (some [[(1 : ℚ), 2], [3, 4, 5]]) = none := by
  constructor
  · rfl
  · rfl

/-- C8 (amended): for a present file parsing as a rectangular numeric table
whose rows all have `w` fields, `load_coordinates` succeeds exactly in
three situations — a single row with `w ≥ 2` fields (`total_steps = 1`),
`n ≥ 2` rows with `w ≥ 2` fields (`total_steps = n`), and, through the
misfiring single-row reshape, `n ≥ 2` rows of exactly one field
(`total_steps = 1`, not `n`). It fails for a missing file, an empty file,
a single row with fewer than 2 fields, `n ≥ 2` rows of zero width, and any
ragged table. -/
theorem C8_load_coordinates_cases (rows : List (List ℚ)) (w : ℕ)
    (hw : ∀ r ∈ rows, r.length = w) :
    (rows = [] → load_coordinates (some rows) = none) ∧
    (rows.length = 1 → 2 ≤ w → load_coordinates (some rows) = some 1) ∧
    (rows.length = 1 → w < 2 → load_coordinates (some rows) = none) ∧
    (2 ≤ rows.length → 2 ≤ w → load_coordinates (some rows) = some rows.length) ∧
    (2 ≤ rows.length → w = 1 → load_coordinates (some rows) = some 1) ∧
    (2 ≤ rows.length → w = 0 → load_coordinates (some rows) = none) ∧
    load_coordinates none = none := by
  have huniform : rows.all (fun r => decide (r.length = (rows.headD []).length)) = true := by
    rw [List.all_eq_true]
    intro r hr
    cases rows with
    | nil => cases hr
    | cons a t =>
        have ha : a.length = w := hw a (List.mem_cons_self a t)
        have hrw : r.length = w := hw r hr
        simp [List.headD, ha, hrw]
  refine ⟨?_, ?_, ?_, ?_, ?_, ?_, rfl⟩
  · intro h0
    subst h0
    rfl
  · intro h1 h2
    match rows, h1 with
    | [r], _ =>
        have hr : r.length = w := hw r (List.mem_cons_self r [])
        simp only [load_coordinates]
        rw [if_pos huniform]
        simp [hr, h2]
  · intro h1 h2
    match rows, h1 with
    | [r], _ =>
        have hr : r.length = w := hw r (List.mem_cons_self r [])
        simp only [load_coordinates]
        rw [if_pos huniform]
        have : ¬ 2 ≤ r.length := by omega
        simp [this]
  · intro h1 h2
    match rows, h1 with
    | r :: s :: t, _ =>
        have hr : r.length = w := hw r (List.mem_cons_self r (s :: t))
        simp only [load_coordinates]
        rw [if_pos huniform]
        simp [hr, h2]
  · intro h1 h2
    match rows, h1 with
    | r :: s :: t, _ =>
        have hr : r.length = w := hw r (List.mem_cons_self r (s :: t))
        simp only [load_coordinates]
        rw [if_pos huniform]
        have hn2 : ¬ 2 ≤ r.length := by omega
        have h1' : r.length = 1 := by omega
        simp [hn2, h1']
  · intro h1 h2
    match rows, h1 with
    | r :: s :: t, _ =>
        have hr : r.length = w := hw r (List.mem_cons_self r (s :: t))
        simp only [load_coordinates]
        rw [if_pos huniform]
        have hn2 : ¬ 2 ≤ r.length := by omega
        have h1' : ¬ r.length = 1 := by omega
        simp [hn2, h1']

/-- Witness for C8: a well-formed two-row, two-column file loads with
`total_steps = 2`. -/
theorem C8_load_coordinates_cases_witness :
    load_coordinates (some [[(1 : ℚ), 2], [3, 4]]) = some 2 :=
  (C8_load_coordinates_cases [[(1 : ℚ), 2], [3, 4]] 2 (by decide)).2.2.2.1
    (by decide) (by decide)

/- ===================================================================
   utils/uv_controller.py — UVcontroller
   =================================================================== -/

namespace UVcontroller

/-- The connection-relevant state of a `UVcontroller` instance:
`connected_flag` is the internal `_is_connected` flag, and `serial` models
`self.serial` — `none` when no handle is held, `some b` when a
`serial.Serial` handle exists with `is_open = b`. -/
structure State where
  connected_flag : Bool
  serial : Option Bool

/-- Possible behaviors of the physical serial link for one command
exchange, abstracting `self.serial.write`/`read_all` and the exceptions
`send_command` catches (`SerialTimeoutException`, `SerialException`, any
other `Exception`). `resp` carries the raw bytes read back. -/
inductive SerialBehavior where
  | resp (bytes : List ℕ)
  | timeout
  | serialError
  | otherError

/-- Embedding of `UVcontroller.is_connected` (uv_controller.py lines 129-133): the
internal flag AND a live handle AND the handle reports open. -/
def is_connected (st : State) : Bool :=
  st.connected_flag && (match st.serial with | some b => b | none => false)

/-- Embedding of `UVcontroller.send_command` (lines 65-86): returns empty bytes without
raising when the controller is not connected or when the exchange raises
any of the caught exceptions; otherwise returns whatever bytes the device
sent back, with no inspection of their content. `device` is the serial
link's behavior for the given command bytes. -/
def send_command (st : State) (command : List ℕ)
    (device : List ℕ → SerialBehavior) : List ℕ :=
  if is_connected st = false then []
  else
    match device command with
    | .resp bytes => bytes
    | .timeout => []
    | .serialError => []
    | .otherError => []

/-- The command bytes `[0xA5, 0xC0, 0x01, 0x66]` sent by `uv_on`. -/
def uvOnCmd : List ℕ := [0xA5, 0xC0, 0x01, 0x66]

/-- The command bytes `[0xA5, 0xC1, 0x01, 0x67]` sent by `uv_off`. -/
def uvOffCmd : List ℕ := [0xA5, 0xC1, 0x01, 0x67]

/-- Embedding of `UVcontroller.uv_on` (lines 106-115): sends the ON command and returns
`False` exactly when the response is empty; any non-empty response yields
`True` ("Assume success if command sent") without checking its content. -/
def uv_on (st : State) (device : List ℕ → SerialBehavior) : Bool :=
  !(send_command st uvOnCmd device).isEmpty

/-- Embedding of `UVcontroller.uv_off` (lines 117-126): same shape as `uv_on` with the
OFF command bytes. -/
def uv_off (st : State) (device : List ℕ → SerialBehavior) : Bool :=
  !(send_command st uvOffCmd device).isEmpty

end UVcontroller

/-- C9: `uv_on`/`uv_off` return `True` iff `send_command` returned a
non-empty byte response; a disconnected controller makes `send_command`
return empty bytes without raising, so both commands then return `False`;
and the response content is never inspected — against a device that
answers any fixed non-empty byte string, `uv_on` returns `True` whenever
the controller is connected, regardless of what the bytes say, so `True`
does not certify the lamp's actual state. -/
theorem C9_uv_commands_trust_any_response (st : UVcontroller.State)
    (device : List ℕ → UVcontroller.SerialBehavior) :
    (UVcontroller.uv_on st device = true ↔
      UVcontroller.send_command st UVcontroller.uvOnCmd device ≠ []) ∧
    (UVcontroller.uv_off st device = true ↔
      UVcontroller.send_command st UVcontroller.uvOffCmd device ≠ []) ∧
    (UVcontroller.is_connected st = false →
      UVcontroller.send_command st UVcontroller.uvOnCmd device = [] ∧
      UVcontroller.send_command st UVcontroller.uvOffCmd device = [] ∧
      UVcontroller.uv_on st device = false ∧
      UVcontroller.uv_off st device = false) ∧
    (∀ bytes : List ℕ, bytes ≠ [] →
      UVcontroller.uv_on st (fun _ => .resp bytes) = UVcontroller.is_connected st) := by
  refine ⟨?_, ?_, ?_, ?_⟩
  · unfold UVcontroller.uv_on
    cases h : UVcontroller.send_command st UVcontroller.uvOnCmd device <;> simp
  · unfold UVcontroller.uv_off
    cases h : UVcontroller.send_command st UVcontroller.uvOffCmd device <;> simp
  · intro hdis
    have hon : UVcontroller.send_command st UVcontroller.uvOnCmd device = [] := by
      unfold UVcontroller.send_command
      rw [if_pos hdis]
    have hoff : UVcontroller.send_command st UVcontroller.uvOffCmd device = [] := by
      unfold UVcontroller.send_command
      rw [if_pos hdis]
    refine ⟨hon, hoff, ?_, ?_⟩
    · unfold UVcontroller.uv_on
      rw [hon]
      rfl
    · unfold UVcontroller.uv_off
      rw [hoff]
      rfl
  · intro bytes hb
    unfold UVcontroller.uv_on UVcontroller.send_command
    cases hc : UVcontroller.is_connected st with
    | false => simp
    | true =>
        simp only [Bool.true_eq_false, if_false]
        simp [hb]

/-- Witness for C9: a connected controller whose device answers the single
byte `0x6F` to every command reports `True` from `uv_on`, and a
disconnected controller reports `False` from both commands. -/
theorem C9_uv_commands_trust_any_response_witness :
    UVcontroller.uv_on ⟨true, some true⟩ (fun _ => .resp [0x6F]) = true ∧
      UVcontroller.uv_on ⟨false, none⟩ (fun _ => .resp [0x6F]) = false ∧
      UVcontroller.uv_off ⟨false, none⟩ (fun _ => .resp [0x6F]) = false := by
  refine ⟨?_, ?_, ?_⟩
  · rw [(C9_uv_commands_trust_any_response ⟨true, some true⟩
      (fun _ => .resp [0x6F])).2.2.2 [0x6F] (by decide)]
    rfl
  · exact ((C9_uv_commands_trust_any_response ⟨false, none⟩
      (fun _ => .resp [0x6F])).2.2.1 rfl).2.2.1
  · exact ((C9_uv_commands_trust_any_response ⟨false, none⟩
      (fun _ => .resp [0x6F])).2.2.1 rfl).2.2.2

/- ===================================================================
   utils/motion_system.py — MotionSystem
   =================================================================== -/

namespace MotionSystem

/-- The connection-relevant state of a `MotionSystem` instance: the two
stage handles (`some ()` when a `Thorlabs.KinesisMotor` object is held,
`none` for Python `None`) and the internal `_is_connected` flag. -/
structure State where
  stage_x : Option Unit
  stage_y : Option Unit
  connected_flag : Bool

/-- The state `__init__` establishes (motion_system.py lines 40-42). -/
def initState : State := ⟨none, none, false⟩

/-- Device behavior oracle for one `connect`/`disconnect` call: whether
each `Thorlabs.KinesisMotor(...)` construction succeeds and whether each
`stage.close()` returns normally (`false` = raises). -/
structure DeviceOracle where
  open_x_ok : Bool
  open_y_ok : Bool
  close_x_ok : Bool
  close_y_ok : Bool

/-- Result of a Python call that either returns a value or lets an
exception escape; both carry the object state left behind. -/
inductive CallResult (α : Type) where
  | ret (value : α) (st : State)
  | exn (st : State)

/-- Embedding of `MotionSystem.is_connected` (lines 97-100): the flag and both handles
present. -/
def is_connected (st : State) : Bool :=
  st.connected_flag && st.stage_x.isSome && st.stage_y.isSome

/-- Embedding of `MotionSystem.connect` (lines 45-72). Already connected: returns
`True` unchanged. Otherwise the X then Y stage objects are constructed
inside `try`; on any construction failure the `except` branch closes
whichever handles are currently held (`if self.stage_x: self.stage_x.close()`,
then the same for Y) — a `close()` that itself raises escapes `connect`
(`exn`) with the handles as they were at that moment — and otherwise
clears both handles, clears the flag, and returns `False`. On success both
handles are held and the flag is set. -/
def connect (st : State) (dev : DeviceOracle) : CallResult Bool :=
  if st.connected_flag then .ret true st
  else if dev.open_x_ok = false then
    -- stage_x construction raised; handles are st.stage_x / st.stage_y
    if st.stage_x.isSome && dev.close_x_ok = false then
      .exn ⟨st.stage_x, st.stage_y, st.connected_flag⟩
    else if st.stage_y.isSome && dev.close_y_ok = false then
      .exn ⟨st.stage_x, st.stage_y, st.connected_flag⟩
    else .ret false ⟨none, none, false⟩
  else if dev.open_y_ok = false then
    -- stage_y construction raised; stage_x is held, stage_y is untouched
    if dev.close_x_ok = false then
      .exn ⟨some (), st.stage_y, st.connected_flag⟩
    else if st.stage_y.isSome && dev.close_y_ok = false then
      .exn ⟨some (), st.stage_y, st.connected_flag⟩
    else .ret false ⟨none, none, false⟩
  else .ret true ⟨some (), some (), true⟩

/-- Embedding of `MotionSystem.disconnect` (lines 74-95). Not connected (flag down):
logs and returns with the state untouched. Otherwise the held handles are
closed inside `try` (a raising `close` is caught by `except`), and the
`finally` block unconditionally clears both handles and the flag, so
`disconnect` never raises and always leaves `⟨none, none, false⟩` when the
flag was up. -/
def disconnect (st : State) (dev : DeviceOracle) : State :=
  if st.connected_flag = false then st
  else ⟨none, none, false⟩

/-- States reachable through calls that return normally: whenever the
connected flag is down, no stage handle is held. Established by
`__init__` and preserved by `connect`/`disconnect` returns (a `close()`
raising inside `connect`'s own cleanup escapes as an exception and is the
one path excluded here). -/
def Inv (st : State) : Prop :=
  st.connected_flag = false → st.stage_x = none ∧ st.stage_y = none

end MotionSystem

/-- C10: on every normally reachable state (`Inv`), after
`MotionSystem.disconnect` returns — including when closing either stage
raised, since the oracle `dev` is universally quantified and the `finally`
block runs regardless — `is_connected` is `False` and both stage handles
are `None`; whenever `connect` returns `False`, both handles are `None`
and the flag is down, so `is_connected` never observes a
partially-connected state; and `Inv` holds initially and is preserved by
every normal return of `connect` and `disconnect`. -/
theorem C10_no_partially_connected_state (st : MotionSystem.State)
    (dev : MotionSystem.DeviceOracle) (hinv : MotionSystem.Inv st) :
    ((MotionSystem.disconnect st dev).stage_x = none ∧
     (MotionSystem.disconnect st dev).stage_y = none ∧
     MotionSystem.is_connected (MotionSystem.disconnect st dev) = false) ∧
    (∀ b st', MotionSystem.connect st dev = .ret b st' → b = false →
      st'.stage_x = none ∧ st'.stage_y = none ∧
        MotionSystem.is_connected st' = false) ∧
    MotionSystem.Inv MotionSystem.initState ∧
    (∀ b st', MotionSystem.connect st dev = .ret b st' → MotionSystem.Inv st') ∧
    MotionSystem.Inv (MotionSystem.disconnect st dev) := by
  obtain ⟨sx, sy, flag⟩ := st
  refine ⟨?_, ?_, ?_, ?_, ?_⟩
  · cases flag with
    | false =>
        obtain ⟨hx, hy⟩ := hinv rfl
        subst hx
        subst hy
        exact ⟨rfl, rfl, rfl⟩
    | true => exact ⟨rfl, rfl, rfl⟩
  · intro b st' hret hb
    subst hb
    unfold MotionSystem.connect at hret
    cases flag with
    | true => simp at hret
    | false =>
        simp only [Bool.false_eq_true, if_false] at hret
        by_cases hx : dev.open_x_ok = false
        · rw [if_pos hx] at hret
          by_cases h1 : sx.isSome && dev.close_x_ok = false
          · rw [if_pos h1] at hret; cases hret
          · rw [if_neg h1] at hret
            by_cases h2 : sy.isSome && dev.close_y_ok = false
            · rw [if_pos h2] at hret; cases hret
            · rw [if_neg h2] at hret
              cases hret
              exact ⟨rfl, rfl, rfl⟩
        · rw [if_neg hx] at hret
          by_cases hy : dev.open_y_ok = false
          · rw [if_pos hy] at hret
            by_cases h1 : dev.close_x_ok = false
            · rw [if_pos h1] at hret; cases hret
            · rw [if_neg h1] at hret
              by_cases h2 : sy.isSome && dev.close_y_ok = false
              · rw [if_pos h2] at hret; cases hret
              · rw [if_neg h2] at hret
                cases hret
                exact ⟨rfl, rfl, rfl⟩
          · rw [if_neg hy] at hret
            cases hret
  · intro h
    exact ⟨rfl, rfl⟩
  · intro b st' hret
    unfold MotionSystem.connect at hret
    cases flag with
    | true =>
        simp at hret
        obtain ⟨-, hst⟩ := hret
        rw [← hst]
        exact hinv
    | false =>
        simp only [Bool.false_eq_true, if_false] at hret
        by_cases hx : dev.open_x_ok = false
        · rw [if_pos hx] at hret
          by_cases h1 : sx.isSome && dev.close_x_ok = false
          · rw [if_pos h1] at hret; cases hret
          · rw [if_neg h1] at hret
            by_cases h2 : sy.isSome && dev.close_y_ok = false
            · rw [if_pos h2] at hret; cases hret
            · rw [if_neg h2] at hret
              cases hret
              intro h
              exact ⟨rfl, rfl⟩
        · rw [if_neg hx] at hret
          by_cases hy : dev.open_y_ok = false
          · rw [if_pos hy] at hret
            by_cases h1 : dev.close_x_ok = false
            · rw [if_pos h1] at hret; cases hret
            · rw [if_neg h1] at hret
              by_cases h2 : sy.isSome && dev.close_y_ok = false
              · rw [if_pos h2] at hret; cases hret
              · rw [if_neg h2] at hret
                cases hret
                intro h
                exact ⟨rfl, rfl⟩
          · rw [if_neg hy] at hret
            cases hret
            intro h
            cases h
  · cases flag with
    | false =>
        obtain ⟨hx, hy⟩ := hinv rfl
        subst hx
        subst hy
        intro h
        exact ⟨rfl, rfl⟩
    | true =>
        intro h
        exact ⟨rfl, rfl⟩

/-- Witness for C10 at a fully connected state with a Y-stage close that
raises: `disconnect` still clears both handles and the connected flag. -/
theorem C10_no_partially_connected_state_witness :
    (MotionSystem.disconnect ⟨some (), some (), true⟩ ⟨true, true, true, false⟩).stage_x
        = none ∧
      (MotionSystem.disconnect ⟨some (), some (), true⟩ ⟨true, true, true, false⟩).stage_y
        = none ∧
      MotionSystem.is_connected
        (MotionSystem.disconnect ⟨some (), some (), true⟩ ⟨true, true, true, false⟩)
        = false :=
  (C10_no_partially_connected_state ⟨some (), some (), true⟩ ⟨true, true, true, false⟩
    (by intro h; cases h)).1

/- ===================================================================
   gui.py — ExperimentWorker.run, stepping loop (lines 129-143)
   =================================================================== -/

namespace ExperimentWorker

/-- One emitted `progress_update` signal: `emit_progress(percentage,
current_status, remaining_str)` (gui.py line 139). `percentage` is the
`int(...)` value, `status` the formatted status text, `remaining_seconds`
the raw `estimated_remaining_sec`, and `remaining_hms` the
`seconds_to_hms` triple from which `remaining_str` (`"HH:MM:SS"`) is
formatted. -/
structure ProgressEvent where
  percentage : ℤ
  status : String
  remaining_seconds : ℚ
  remaining_hms : ℤ × ℤ × ℤ

/-- Computes `percentage = int((i / total_steps) * 100)` (gui.py line 133): Python
`int()` truncates toward zero, which for the nonnegative ratio `i/n` is
the floor; the float arithmetic is idealized as exact rationals. -/
def worker_percentage (i n : ℕ) : ℤ :=
  ⌊((i : ℚ) / (n : ℚ)) * 100⌋

/-- Builds `current_status = f"Running Step {i}/{total_steps} (X={x_pos:.2f},
Y={y_pos:.2f})"` (gui.py line 134), with the 2-decimal float rendering
abstracted as `fmt`. -/
def worker_status (fmt : ℚ → String) (i n : ℕ) (x y : ℚ) : String :=
  "Running Step " ++ toString i ++ "/" ++ toString n ++ " (X=" ++ fmt x
    ++ ", Y=" ++ fmt y ++ ")"

/-- The `ProgressEvent` emitted at the top of iteration `i` of the worker
stepping loop (gui.py lines 129-139): `x_pos, y_pos = row[0], row[1]` for
row `i` (1-based), `remaining_steps = total_steps - i`,
`avg_step_time = elapsed_time / i if i > 0 else
estimated_total_seconds / max(1, total_steps)`, and
`estimated_remaining_sec = remaining_steps * avg_step_time`. The
wall-clock `elapsed_time = time.monotonic() - run_start_time` at iteration
`i` is supplied by the oracle `elapsed`. -/
def worker_event (fmt : ℚ → String) (coords : List (ℚ × ℚ)) (est_total : ℚ)
    (elapsed : ℕ → ℚ) (i : ℕ) : ProgressEvent :=
  let n := coords.length
  let xy := coords.getD (i - 1) (0, 0)
  let avg := if 0 < i then elapsed i / (i : ℚ) else est_total / ((max 1 n : ℕ) : ℚ)
  let rem := ((n - i : ℕ) : ℚ) * avg
  { percentage := worker_percentage i n
    status := worker_status fmt i n xy.1 xy.2
    remaining_seconds := rem
    remaining_hms := seconds_to_hms rem }

end ExperimentWorker

/-- A trivial stand-in for the 2-decimal float renderer, used only in
concrete instances of the worker loop. -/
def fmtNum : ℚ → String := fun q => toString q.num

/-- C5 counterexample: the claim says the emitted percentage equals
`round(100*i/n)` (nearest integer). At step `i = 2` of `n = 3` the code's
`int((2/3)*100)` truncates to `66`, while the nearest integer to `200/3`
is `67`, so the claim as stated is false. -/
theorem C5_percentage_counterexample :
    (ExperimentWorker.worker_event fmtNum [(1, 2), (3, 4), (5, 6)] 6
        (fun _ => 10) 2).percentage = 66 ∧
      round ((100 * 2 : ℚ) / 3) = 67 := by
  constructor
  · show ExperimentWorker.worker_percentage 2 3 = 66
    unfold ExperimentWorker.worker_percentage
    norm_num [Int.floor_eq_iff]
  · norm_num [round_eq, Int.floor_eq_iff]

/-- C5 (amended): for every step `i` of `n` (1 ≤ i ≤ n) the emitted
`ProgressEvent` carries the percentage `⌊100*i/n⌋` — Python's `int()`
truncation of `(i/n)*100`, not `round(100*i/n)` — a status message
containing the renderings of both target coordinates of row `i`, and the
live remaining-time estimate `(n - i) * (elapsed_i / i)`, also as the
`seconds_to_hms` triple behind the displayed string. -/
theorem C5_progress_event_fields (fmt : ℚ → String) (coords : List (ℚ × ℚ))
    (est_total : ℚ) (elapsed : ℕ → ℚ) (i : ℕ) (h1 : 1 ≤ i)
    (h2 : i ≤ coords.length) :
    (ExperimentWorker.worker_event fmt coords est_total elapsed i).percentage
        = ((100 * i) / coords.length : ℕ) ∧
    (∃ s1 s2 s3,
      (ExperimentWorker.worker_event fmt coords est_total elapsed i).status
        = s1 ++ fmt (coords.getD (i - 1) (0, 0)).1 ++ s2
            ++ fmt (coords.getD (i - 1) (0, 0)).2 ++ s3) ∧
    (ExperimentWorker.worker_event fmt coords est_total elapsed i).remaining_seconds
        = ((coords.length - i : ℕ) : ℚ) * (elapsed i / (i : ℚ)) ∧
    (ExperimentWorker.worker_event fmt coords est_total elapsed i).remaining_hms
        = seconds_to_hms (((coords.length - i : ℕ) : ℚ) * (elapsed i / (i : ℚ))) := by
  have hpos : 0 < i := h1
  refine ⟨?_, ?_, ?_, ?_⟩
  · show ExperimentWorker.worker_percentage i coords.length = _
    unfold ExperimentWorker.worker_percentage
    have hcast : ((i : ℚ) / (coords.length : ℚ)) * 100
        = ((100 * i : ℕ) : ℚ) / ((coords.length : ℕ) : ℚ) := by
      push_cast
      ring
    rw [hcast, Rat.floor_natCast_div_natCast, Int.natCast_div]
  · exact ⟨"Running Step " ++ toString i ++ "/" ++ toString coords.length ++ " (X=",
      ", Y=", ")", rfl⟩
  · show ((coords.length - i : ℕ) : ℚ) *
        (if 0 < i then elapsed i / (i : ℚ)
         else est_total / ((max 1 coords.length : ℕ) : ℚ)) = _
    rw [if_pos hpos]
  · show seconds_to_hms (((coords.length - i : ℕ) : ℚ) *
        (if 0 < i then elapsed i / (i : ℚ)
         else est_total / ((max 1 coords.length : ℕ) : ℚ))) = _
    rw [if_pos hpos]

/-- Witness for C5 at step 2 of 3 with 10 seconds elapsed: the emitted
percentage is `⌊200/3⌋ = 66` and the remaining estimate is
`1 * (10 / 2) = 5` seconds. -/
theorem C5_progress_event_fields_witness :
    (ExperimentWorker.worker_event fmtNum [(1, 2), (3, 4), (5, 6)] 6
        (fun _ => 10) 2).percentage = ((100 * 2) / 3 : ℕ) ∧
      (ExperimentWorker.worker_event fmtNum [(1, 2), (3, 4), (5, 6)] 6
          (fun _ => 10) 2).remaining_seconds
        = ((3 - 2 : ℕ) : ℚ) * ((10 : ℚ) / (2 : ℚ)) :=
  ⟨(C5_progress_event_fields fmtNum [(1, 2), (3, 4), (5, 6)] 6 (fun _ => 10) 2
      (by decide) (by decide)).1,
   (C5_progress_event_fields fmtNum [(1, 2), (3, 4), (5, 6)] 6 (fun _ => 10) 2
      (by decide) (by decide)).2.2.1⟩

/- ===================================================================
   utils/experiment_runner.py — ExperimentRunner.run (lines 139-203)
   =================================================================== -/

namespace ExperimentRunner

/-- Outcome of one blocking call in the run body: it returns `True`,
returns `False`, or a `KeyboardInterrupt` escapes it (the hardware-layer
`except Exception` handlers do not catch `KeyboardInterrupt`, so it
reaches `run`'s own handler). -/
inductive HwRes where
  | ok
  | fail
  | intr
deriving DecidableEq

/-- Observable hardware commands issued during a run, in program order. -/
inductive Ev where
  | load
  | connectMotion
  | connectUV
  | checkConn
  | estimate
  | moveOrigin
  | uvOnCmd
  | move (i : ℕ)
  | cure (i : ℕ)
  | uvOffCmd
  | uvDisconnect
  | motionDisconnect
deriving DecidableEq

/-- Terminal outcome of a run, as classified by `run`'s handlers: the loop
completed (`run_success_status = True`), `KeyboardInterrupt` was caught
(aborted), or another exception was caught (failed). -/
inductive Outcome where
  | completed
  | aborted
  | failed
deriving DecidableEq

/-- How the `try` body of `run` ended before the `finally` block. -/
inductive BodyExit where
  | success
  | error
  | interrupt
deriving DecidableEq

/-- How `_connect_hardware` ended. -/
inductive ConnectRes where
  | ok
  | fail
  | intr
deriving DecidableEq

/-- How the stepping loop ended. -/
inductive LoopRes where
  | done
  | failedStep
  | intr
deriving DecidableEq

/-- The `_is_connected` flags of the two controller objects as the runner
sees them when the cleanup sequence starts. -/
structure RunnerSt where
  motionConn : Bool
  uvConn : Bool

/-- Environment oracle for one call of `run`: the result of each blocking
call the body makes, the loaded coordinate rows, the device-side halves of
the `is_connected()` checks, and, per step `i`, the move result and
whether the cure `time.sleep` completes (`false` = interrupted).
Interrupts are modeled at these call boundaries; a second
`KeyboardInterrupt` striking inside the `finally` cleanup itself is
outside the model. -/
structure RunOracle where
  loadRes : HwRes
  coords : List (ℚ × ℚ)
  motionConnect : HwRes
  uvConnect : HwRes
  motionDevOk : Bool
  uvDevOk : Bool
  moveOrigin : HwRes
  uvOn : HwRes
  moveStep : ℕ → HwRes
  sleepStep : ℕ → Bool
  uvOpenAtCleanup : Bool

/-- Embedding of `ExperimentRunner._connect_hardware` (lines 106-124): connect motion,
then UV; a failed UV connect tears the motion system down again; after
both connects the two `is_connected()` checks must pass (their device-side
halves are `motionDevOk`/`uvDevOk`), otherwise both controllers are
disconnected, UV first. Returns the trace of issued commands, the
controller flags left behind, and how the call ended. -/
def connect_hardware (o : RunOracle) : List Ev × RunnerSt × ConnectRes :=
  match o.motionConnect with
  | .intr => ([.connectMotion], ⟨false, false⟩, .intr)
  | .fail => ([.connectMotion], ⟨false, false⟩, .fail)
  | .ok =>
      match o.uvConnect with
      | .intr => ([.connectMotion, .connectUV], ⟨true, false⟩, .intr)
      | .fail => ([.connectMotion, .connectUV, .motionDisconnect], ⟨false, false⟩, .fail)
      | .ok =>
          if o.motionDevOk && o.uvDevOk then
            ([.connectMotion, .connectUV, .checkConn], ⟨true, true⟩, .ok)
          else
            ([.connectMotion, .connectUV, .checkConn, .uvDisconnect, .motionDisconnect],
              ⟨false, false⟩, .fail)

/-- The stepping loop of `run` (lines 164-182), starting at step `i`: each
iteration issues the move (a `False` return raises `RuntimeError`, an
interrupt aborts) and then the cure wait (completing or interrupted). -/
def stepsLoop (moveStep : ℕ → HwRes) (sleepStep : ℕ → Bool) :
    List (ℚ × ℚ) → ℕ → List Ev × LoopRes
  | [], _ => ([], .done)
  | _ :: rest, i =>
      match moveStep i with
      | .intr => ([.move i], .intr)
      | .fail => ([.move i], .failedStep)
      | .ok =>
          if sleepStep i then
            ((.move i) :: (.cure i) :: (stepsLoop moveStep sleepStep rest (i + 1)).1,
              (stepsLoop moveStep sleepStep rest (i + 1)).2)
          else ([.move i, .cure i], .intr)

/-- The `try` body of `ExperimentRunner.run` (lines 147-184):
load coordinates, connect hardware, estimate the duration (logging only),
optionally move to the origin, turn the UV source on, then run the
stepping loop. Returns the trace of the body, the controller flags at the
moment the body ends, and how it ended. -/
def runner_body (o : RunOracle) (start_at_origin : Bool) :
    List Ev × RunnerSt × BodyExit :=
  match o.loadRes with
  | .intr => ([.load], ⟨false, false⟩, .interrupt)
  | .fail => ([.load], ⟨false, false⟩, .error)
  | .ok =>
      match connect_hardware o with
      | (tc, st, .intr) => (.load :: tc, st, .interrupt)
      | (tc, st, .fail) => (.load :: tc, st, .error)
      | (tc, st, .ok) =>
          match (if start_at_origin then
                  match o.moveOrigin with
                  | .intr => ([Ev.moveOrigin], some BodyExit.interrupt)
                  | .fail => ([Ev.moveOrigin], some BodyExit.error)
                  | .ok => ([Ev.moveOrigin], none)
                 else ([], none) : List Ev × Option BodyExit) with
          | (t0, some e) => (.load :: tc ++ [.estimate] ++ t0, st, e)
          | (t0, none) =>
              match o.uvOn with
              | .intr => (.load :: tc ++ [.estimate] ++ t0 ++ [.uvOnCmd], st, .interrupt)
              | .fail => (.load :: tc ++ [.estimate] ++ t0 ++ [.uvOnCmd], st, .error)
              | .ok =>
                  (.load :: tc ++ [.estimate] ++ t0 ++ [.uvOnCmd]
                      ++ (stepsLoop o.moveStep o.sleepStep o.coords 1).1, st,
                    match (stepsLoop o.moveStep o.sleepStep o.coords 1).2 with
                    | .done => .success
                    | .failedStep => .error
                    | .intr => .interrupt)

/-- Embedding of `ExperimentRunner._disconnect_hardware` (lines 126-137): if the UV
controller still reports connected (its flag and the device-side handle
state `uvOpen`), the UV OFF command is sent first; then the UV controller
is disconnected and the motion system is disconnected, in that order,
unconditionally. Neither controller's `disconnect` re-raises. -/
def disconnect_hardware (st : RunnerSt) (uvOpen : Bool) : List Ev :=
  (if st.uvConn && uvOpen then [Ev.uvOffCmd] else [])
    ++ [Ev.uvDisconnect, Ev.motionDisconnect]

/-- Embedding of `ExperimentRunner.run` (lines 139-203): the body runs under
`try`, whose `except KeyboardInterrupt`/`except Exception` handlers
classify the exit, and the `finally` block appends the cleanup sequence
`_disconnect_hardware` to every exit path before the outcome is
reported. -/
def runner_run (o : RunOracle) (start_at_origin : Bool) : Outcome × List Ev :=
  ((match (runner_body o start_at_origin).2.2 with
    | .success => Outcome.completed
    | .error => Outcome.failed
    | .interrupt => Outcome.aborted),
    (runner_body o start_at_origin).1
      ++ disconnect_hardware (runner_body o start_at_origin).2.1 o.uvOpenAtCleanup)

end ExperimentRunner

theorem uvOff_not_in_connect_hardware (o : ExperimentRunner.RunOracle) :
    ExperimentRunner.Ev.uvOffCmd ∉ (ExperimentRunner.connect_hardware o).1 := by
  unfold ExperimentRunner.connect_hardware
  cases o.motionConnect with
  | intr => simp
  | fail => simp
  | ok =>
      cases o.uvConnect with
      | intr => simp
      | fail => simp
      | ok =>
          by_cases hd : (o.motionDevOk && o.uvDevOk) = true
          · simp only [hd, if_true]
            simp
          · simp only [hd, if_false]
            simp

theorem uvOff_not_in_stepsLoop (mv : ℕ → ExperimentRunner.HwRes)
    (sl : ℕ → Bool) (coords : List (ℚ × ℚ)) (i : ℕ) :
    ExperimentRunner.Ev.uvOffCmd ∉ (ExperimentRunner.stepsLoop mv sl coords i).1 := by
  induction coords generalizing i with
  | nil =>
      unfold ExperimentRunner.stepsLoop
      simp
  | cons c rest ih =>
      unfold ExperimentRunner.stepsLoop
      cases mv i with
      | intr => simp
      | fail => simp
      | ok =>
          by_cases hs : sl i = true
          · simp only [hs, if_true]
            intro hmem
            rcases List.mem_cons.mp hmem with h | hmem2
            · cases h
            · rcases List.mem_cons.mp hmem2 with h | hmem3
              · cases h
              · exact ih (i + 1) hmem3
          · simp only [hs, if_false]
            simp

theorem uvOff_not_in_body (o : ExperimentRunner.RunOracle) (start_at_origin : Bool) :
    ExperimentRunner.Ev.uvOffCmd ∉ (ExperimentRunner.runner_body o start_at_origin).1 := by
  unfold ExperimentRunner.runner_body
  cases o.loadRes with
  | intr => simp
  | fail => simp
  | ok =>
      rcases hc : ExperimentRunner.connect_hardware o with ⟨tc, st, cr⟩
      have htc : ExperimentRunner.Ev.uvOffCmd ∉ tc := by
        have hmem := uvOff_not_in_connect_hardware o
        rw [hc] at hmem
        exact hmem
      cases cr with
      | intr => simp [htc]
      | fail => simp [htc]
      | ok =>
          cases start_at_origin with
          | false =>
              cases o.uvOn with
              | intr => simp [htc]
              | fail => simp [htc]
              | ok => simp [htc, uvOff_not_in_stepsLoop]
          | true =>
              cases o.moveOrigin with
              | intr => simp [htc]
              | fail => simp [htc]
              | ok =>
                  cases o.uvOn with
                  | intr => simp [htc]
                  | fail => simp [htc]
                  | ok => simp [htc, uvOff_not_in_stepsLoop]

/-- An environment in which every hardware call succeeds and the single
coordinate step completes: the run completes. -/
def oracleCompleted : ExperimentRunner.RunOracle :=
  ⟨.ok, [(1, 2)], .ok, .ok, true, true, .ok, .ok, fun _ => .ok, fun _ => true, true⟩

/-- An environment identical to `oracleCompleted` except that a
`KeyboardInterrupt` strikes during the first cure wait: the run aborts. -/
def oracleAborted : ExperimentRunner.RunOracle :=
  ⟨.ok, [(1, 2)], .ok, .ok, true, true, .ok, .ok, fun _ => .ok, fun _ => false, true⟩

/-- An environment identical to `oracleCompleted` except that the motion
system fails during the first step's move: the run fails. -/
def oracleFailed : ExperimentRunner.RunOracle :=
  ⟨.ok, [(1, 2)], .ok, .ok, true, true, .ok, .ok, fun _ => .fail, fun _ => true, true⟩

/-- C1: for every environment behavior and both homing settings, the trace
of `ExperimentRunner.run` decomposes as the body's commands followed by
exactly one cleanup block: an optional single UV OFF command (present
exactly when the UV controller is still connected at cleanup), then the UV
controller disconnect, then the motion system disconnect, in that order —
and no UV OFF command occurs anywhere before the cleanup block, so the
cleanup's UV shutdown happens exactly once and UV is commanded off before
the UV controller is disconnected, which itself precedes the motion
disconnect. All three terminal outcomes arise and traverse this same
decomposition: the three concrete environments below produce `completed`,
`aborted` and `failed`. -/
theorem C1_cleanup_once_uv_off_before_disconnect :
    (∀ (o : ExperimentRunner.RunOracle) (start_at_origin : Bool),
      ∃ body mid,
        (ExperimentRunner.runner_run o start_at_origin).2
            = body ++ mid
              ++ [ExperimentRunner.Ev.uvDisconnect, ExperimentRunner.Ev.motionDisconnect] ∧
        (mid = [] ∨ mid = [ExperimentRunner.Ev.uvOffCmd]) ∧
        ExperimentRunner.Ev.uvOffCmd ∉ body) ∧
    (ExperimentRunner.runner_run oracleCompleted true).1
        = ExperimentRunner.Outcome.completed ∧
    (ExperimentRunner.runner_run oracleAborted true).1
        = ExperimentRunner.Outcome.aborted ∧
    (ExperimentRunner.runner_run oracleFailed true).1
        = ExperimentRunner.Outcome.failed := by
  refine ⟨?_, rfl, rfl, rfl⟩
  intro o start_at_origin
  refine ⟨(ExperimentRunner.runner_body o start_at_origin).1,
    (if (ExperimentRunner.runner_body o start_at_origin).2.1.uvConn
        && o.uvOpenAtCleanup then [ExperimentRunner.Ev.uvOffCmd] else []),
    by rw [List.append_assoc]; rfl, ?_, uvOff_not_in_body o start_at_origin⟩
  by_cases hu : ((ExperimentRunner.runner_body o start_at_origin).2.1.uvConn
      && o.uvOpenAtCleanup) = true
  · right
    rw [if_pos hu]
  · left
    rw [if_neg hu]
